import Mathlib

/-!
Verification development for the EPGStation recording-engine sample
(TypeScript sources: src/model/event/RecordingEvent.ts, src/DropCheck.ts,
plus an earlier DropCheck revision and DB/REST interface declarations).

The TypeScript is shallowly embedded: the event bus is modelled as an
explicit listener table (Node's EventEmitter keeps, per event name, the
listeners in registration order and invokes them in that order), every
callback is a function returning `Except String Unit` (an `error` value
stands for a synchronous throw or a rejected promise), and the CLI's
effectful run is a function from an environment of external outcomes to
the trace of actions it performs plus its exit code.
-/

namespace EPGStation

/-! ## RecordingEvent: data carried by the events -/

/-- Reserve entity (db/entities/Reserve); only identity matters here. -/
structure Reserve where
  id : Nat
deriving DecidableEq, Repr

/-- Recorded entity (db/entities/Recorded); only identity matters here. -/
structure Recorded where
  id : Nat
deriving DecidableEq, Repr

/-- Element of the event-relay payload:
`\x7b programId: apid.ProgramId; parentReserve: Reserve \x7d`. -/
structure RelayProgram where
  programId : Nat
  parentReserve : Reserve
deriving DecidableEq, Repr

/-- Argument tuples passed through `emitter.emit` by the eight
`emit*` methods of RecordingEvent. -/
inductive EvArgs
  | reserveOnly (reserve : Reserve)
  | startArgs (reserve : Reserve) (recorded : Recorded)
  | failedArgs (reserve : Reserve) (recorded : Option Recorded)
  | finishArgs (reserve : Reserve) (recorded : Recorded) (isNeedDeleteReservation : Bool)
  | relayArgs (programs : List RelayProgram)
deriving DecidableEq, Repr

/-- A registered user callback. `Except.error e` models the callback
throwing (or its returned promise rejecting) with message `e`; each
`set*` method wraps the callback in `try \x7b await callback(...) \x7d
catch (err) \x7b this.log.system.error(err) \x7d`. -/
abbrev Callback : Type := EvArgs → Except String Unit

/-- Node EventEmitter state: the listener registrations in the order
they were made, each under its event name. -/
structure EventEmitter where
  listeners : List (String × Callback)

/-- Fresh emitter (`new events.EventEmitter()`). -/
def EventEmitter.empty : EventEmitter := ⟨[]⟩

/-- Register a listener: `emitter.on(key, cb)` appends to the listener
list for `key`. -/
def emitterOn (em : EventEmitter) (key : String) (cb : Callback) : EventEmitter :=
  ⟨em.listeners ++ [(key, cb)]⟩

/-- Listeners registered for one event name, in registration order. -/
def listenersFor (em : EventEmitter) (key : String) : List Callback :=
  (em.listeners.filter (fun p => p.1 = key)).map (fun p => p.2)

/-- Register a whole list of callbacks under one event name, first to
last. -/
def registerAll (em : EventEmitter) (key : String) (cbs : List Callback) : EventEmitter :=
  cbs.foldl (fun e cb => emitterOn e key cb) em

/-- One dispatch record: which callback ran, with which arguments, and
how the callback itself ended (before the wrapper caught any failure). -/
abbrev DispatchRecord : Type := Callback × EvArgs × Except String Unit

/-- The dispatch loop over the listeners of the emitted event name.
For each listener the wrapper installed by `set*` runs the callback;
a failure is appended to the log (`this.log.system.error(err)`) and the
loop simply continues with the next listener — nothing is rethrown. -/
def emitLoop : List Callback → EvArgs → List String → List DispatchRecord × List String
  | [], _, log => ([], log)
  | cb :: rest, a, log =>
    let r := cb a
    let log1 := match r with
      | Except.ok _ => log
      | Except.error e => log ++ [e]
    let next := emitLoop rest a log1
    ((cb, a, r) :: next.1, next.2)

/-- Emit an event: `emitter.emit(key, ...args)` dispatches, in order,
every listener registered for `key`; the result is the trace of listener
invocations and the log of caught listener failures. -/
def emitterEmit (em : EventEmitter) (key : String) (a : EvArgs) :
    List DispatchRecord × List String :=
  emitLoop (listenersFor em key) a []

/-- Errors the wrapper logs for one emission: one entry per failing
listener, in dispatch order. -/
def errorsOf (l : List Callback) (a : EvArgs) : List String :=
  l.filterMap (fun cb => match cb a with
    | Except.ok _ => none
    | Except.error e => some e)

namespace RecordingEvent

def START_PREP_RRECORDING_EVENT : String := "StartPrepRecording"

def CANCEL_PREP_RRECORDING_EVENT : String := "CancelPrepRecording"

def PREP_RECORDING_FAILED_EVENT : String := "PrepRecordingFailed"

def START_RECORDING_EVENT : String := "StartRecordingEvent"

def RECORDING_FAILED_EVENT : String := "RecordingFailedEvent"

def RECORDING_RETRY_OVER_EVENT : String := "RecordingRetryOverEvent"

def FINISH_RECORDING_EVENT : String := "FinishRecordingEvent"

def EVENT_RELAY_EVENT : String := "EventRelayEvent"

/-- The eight event-name constants of the RecordingEvent namespace, in
source order. -/
def eventNames : List String :=
  [START_PREP_RRECORDING_EVENT, CANCEL_PREP_RRECORDING_EVENT,
   PREP_RECORDING_FAILED_EVENT, START_RECORDING_EVENT,
   RECORDING_FAILED_EVENT, RECORDING_RETRY_OVER_EVENT,
   FINISH_RECORDING_EVENT, EVENT_RELAY_EVENT]

def emitStartPrepRecording (em : EventEmitter) (reserve : Reserve) :
    List DispatchRecord × List String :=
  emitterEmit em START_PREP_RRECORDING_EVENT (EvArgs.reserveOnly reserve)

def emitCancelPrepRecording (em : EventEmitter) (reserve : Reserve) :
    List DispatchRecord × List String :=
  emitterEmit em CANCEL_PREP_RRECORDING_EVENT (EvArgs.reserveOnly reserve)

def emitPrepRecordingFailed (em : EventEmitter) (reserve : Reserve) :
    List DispatchRecord × List String :=
  emitterEmit em PREP_RECORDING_FAILED_EVENT (EvArgs.reserveOnly reserve)

def emitStartRecording (em : EventEmitter) (reserve : Reserve) (recorded : Recorded) :
    List DispatchRecord × List String :=
  emitterEmit em START_RECORDING_EVENT (EvArgs.startArgs reserve recorded)

def emitRecordingFailed (em : EventEmitter) (reserve : Reserve) (recorded : Option Recorded) :
    List DispatchRecord × List String :=
  emitterEmit em RECORDING_FAILED_EVENT (EvArgs.failedArgs reserve recorded)

def emitRecordingRetryOver (em : EventEmitter) (reserve : Reserve) :
    List DispatchRecord × List String :=
  emitterEmit em RECORDING_RETRY_OVER_EVENT (EvArgs.reserveOnly reserve)

def emitFinishRecording (em : EventEmitter) (reserve : Reserve) (recorded : Recorded)
    (isNeedDeleteReservation : Bool) : List DispatchRecord × List String :=
  emitterEmit em FINISH_RECORDING_EVENT
    (EvArgs.finishArgs reserve recorded isNeedDeleteReservation)

def emitEventRelay (em : EventEmitter) (programs : List RelayProgram) :
    List DispatchRecord × List String :=
  emitterEmit em EVENT_RELAY_EVENT (EvArgs.relayArgs programs)

def setStartPrepRecording (em : EventEmitter) (cb : Callback) : EventEmitter :=
  emitterOn em START_PREP_RRECORDING_EVENT cb

def setCancelPrepRecording (em : EventEmitter) (cb : Callback) : EventEmitter :=
  emitterOn em CANCEL_PREP_RRECORDING_EVENT cb

def setPrepRecordingFailed (em : EventEmitter) (cb : Callback) : EventEmitter :=
  emitterOn em PREP_RECORDING_FAILED_EVENT cb

def setStartRecording (em : EventEmitter) (cb : Callback) : EventEmitter :=
  emitterOn em START_RECORDING_EVENT cb

def setRecordingFailed (em : EventEmitter) (cb : Callback) : EventEmitter :=
  emitterOn em RECORDING_FAILED_EVENT cb

def setRecordingRetryOver (em : EventEmitter) (cb : Callback) : EventEmitter :=
  emitterOn em RECORDING_RETRY_OVER_EVENT cb

def setFinishRecording (em : EventEmitter) (cb : Callback) : EventEmitter :=
  emitterOn em FINISH_RECORDING_EVENT cb

def setEventRelay (em : EventEmitter) (cb : Callback) : EventEmitter :=
  emitterOn em EVENT_RELAY_EVENT cb

end RecordingEvent

/-! ## DropCheck CLI: drop results and the Slack webhook post -/

/-- Per-channel counters of an aribts drop-check result entry. -/
structure PidCounts where
  error : Nat
  drop : Nat
  scrambling : Nat
deriving DecidableEq, Repr

/-- The aribts result: channel identifier (PID) to counters, as the
enumerable own properties walked by the for..in loops. -/
abbrev DropResult : Type := List (Nat × PidCounts)

/-- The accumulation both `_printDropResult` and `_postToSlack` perform:
`for (const pid in dropResult) \x7b error += ...; drop += ...;
scrambling += ...; \x7d`, yielding (error, drop, scrambling). -/
def sumCounts (dropResult : DropResult) : Nat × Nat × Nat :=
  dropResult.foldl
    (fun acc p => (acc.1 + p.2.error, acc.2.1 + p.2.drop, acc.2.2 + p.2.scrambling))
    (0, 0, 0)

/-- JavaScript ToInt32 truncation, up to sign: the 32-bit residue of a
nonnegative number. A JS number is falsy after `|` exactly when this
residue is zero, so it is all the urgency test observes. -/
def toInt32Residue (n : Nat) : Nat := n % 4294967296

/-- The payload object handed to `JSON.stringify`: its `text` field and
the `text` of each mrkdwn section block, in order. -/
structure SlackPayload where
  text : String
  blocks : List String
deriving DecidableEq, Repr

/-- Effects `_postToSlack` performs on the https module. -/
inductive HttpAction
  | request (method : String) (contentType : String)
  | write (payload : SlackPayload)
  | endRequest
deriving DecidableEq, Repr

def hereMention : String := "<!here>"

def warningHead : String := ":warning: "

def checkHead : String := ":white_check_mark: "

def urgentTextHead : String := "[!] "

/-- The E/D/S one-line summary `resultMrkdwn`, built from the three
totals exactly as in the source (zero totals are shown plain, non-zero
totals bold). -/
def resultMrkdwn (error drop scrambling : Nat) : String :=
  String.intercalate " "
    [if error = 0 then "E:0" else "*E:" ++ toString error ++ "*",
     if drop = 0 then "D:0" else "*D:" ++ toString drop ++ "*",
     if scrambling = 0 then "S:0" else "*S:" ++ toString scrambling ++ "*"]

/-- The hard-coded webhook target of `_postToSlack` (a placeholder the
source marks with a TODO; not a valid URL). -/
def SLACK_WEBHOOK_URL : String := "WEB_HOOK_URL_HERE"

/-- The payload object `_postToSlack` builds before touching the https
module: sums the three counters over the result entries, computes
`hasProblem = error | drop | scrambling` (JS 32-bit bitwise OR, hence
the ToInt32 residues), and assembles the top-level text and the mrkdwn
section blocks. This part of the method is pure and always runs. -/
def slackPayload (dropResult : DropResult) (srcM2tsPath : String) : SlackPayload :=
  let t := sumCounts dropResult
  let error := t.1
  let drop := t.2.1
  let scrambling := t.2.2
  let hasProblem :=
    toInt32Residue error ||| toInt32Residue drop ||| toInt32Residue scrambling
  let texts0 : List String := if hasProblem ≠ 0 then [hereMention] else []
  let resultHead := if hasProblem ≠ 0 then warningHead else checkHead
  let texts := texts0 ++
    [resultHead ++ resultMrkdwn error drop scrambling, ">" ++ srcM2tsPath]
  let textHead := if hasProblem ≠ 0 then urgentTextHead else ""
  ⟨textHead ++ srcM2tsPath, texts⟩

/-- Model of `_postToSlack(dropResult)`: after the payload is built,
`https.request(SLACK_WEBHOOK_URL, requestOptions)` is called.
`requestOutcome` is the behavior of that external call: `some e`
models its synchronous throw — which the shipped placeholder webhook
URL, not being a valid URL, always produces — in which case the
exception propagates before `request.write`/`request.end` run and no
HTTP action is performed at all; `none` models a constructed request,
which is then written the JSON payload and ended: a single POST. The
result is the list of performed HTTP actions and the propagated
exception, if any. -/
def postToSlack (requestOutcome : Option String) (dropResult : DropResult)
    (srcM2tsPath : String) : List HttpAction × Option String :=
  let payload := slackPayload dropResult srcM2tsPath
  match requestOutcome with
  | some e => ([], some e)
  | none =>
    ([HttpAction.request "POST" "application/json",
      HttpAction.write payload, HttpAction.endRequest], none)

/-- A POST-counting helper: the request actions among the performed
actions. -/
def requestsOf (acts : List HttpAction) : List (String × String) :=
  acts.filterMap (fun a => match a with
    | HttpAction.request m ct => some (m, ct)
    | _ => none)

/-- Urgency marking of a built payload, as the claim reads it: the
top-level text carries the urgent prefix before the source path and the
here-mention block is present. -/
def isUrgentPayload (payload : SlackPayload) (srcM2tsPath : String) : Bool :=
  payload.text == urgentTextHead ++ srcM2tsPath &&
    payload.blocks.contains hereMention

/-! ## DropCheck CLI: argument handling (constructor) -/

/-- The parsed configuration held by a constructed DropCheck instance. -/
structure CliConfig where
  srcM2tsPath : String
  dstLogDirPath : Option String
  isPostToSlack : Bool
deriving DecidableEq, Repr

/-- The usage diagnostics printed by the constructor when no input file
was given. -/
def usageMessages : List String :=
  ["入力ファイルが指定されていません",
   "使用方法: npm run dropcheck INPUT.m2ts",
   "       or npm run dropcheck -- INPUT.m2ts -- -o LOG_OUT_DIR"]

/-- Model of the DropCheck constructor over the minimist-parsed options:
`input` is a string option (undefined when absent), `output` likewise,
`slack` a boolean defaulting to false. When `input` is undefined or the
empty string the constructor prints the usage diagnostics and calls
`process.exit(1)` (modelled as the error case carrying the messages and
the exit code), so `run` is never reached; otherwise the instance fields
are set from the arguments. -/
def dropCheckConstructor (input : Option String) (output : Option String)
    (slack : Bool) : Except (List String × Nat) CliConfig :=
  match input with
  | none => Except.error (usageMessages, 1)
  | some s => if s = "" then Except.error (usageMessages, 1) else Except.ok ⟨s, output, slack⟩

/-! ## DropCheck CLI: path.dirname and the log-directory choice -/

/-- Scan of Node path.posix.dirname: walk indices i, i-1, ..., 1 of the
character list (index 0 is never examined), skipping trailing slashes,
and return the index of the last slash that is followed by some
non-slash character, if any. -/
def dirnameGo (cs : List Char) : Nat → Bool → Option Nat
  | 0, _ => none
  | i + 1, matchedSlash =>
    if cs.getD (i + 1) ' ' = '/' then
      if matchedSlash then dirnameGo cs i matchedSlash else some (i + 1)
    else dirnameGo cs i false

/-- Node path.posix.dirname: empty input gives ".", otherwise the input
up to (excluding) the last directory separator, with the root and
double-root special cases. -/
def pathDirname (p : String) : String :=
  let cs := p.data
  if cs.length = 0 then "."
  else
    let hasRoot := cs.getD 0 ' ' = '/'
    match dirnameGo cs (cs.length - 1) true with
    | none => if hasRoot then "/" else "."
    | some e => if hasRoot ∧ e = 1 then "//" else String.mk (cs.take e)

/-- The first argument of `checker.start`:
`this.dstLogDirPath || path.dirname(this.srcM2tsPath)` — JS `||` falls
through on undefined and on the empty string (both falsy). -/
def resolveLogDir (dstLogDirPath : Option String) (srcM2tsPath : String) : String :=
  match dstLogDirPath with
  | none => pathDirname srcM2tsPath
  | some s => if s = "" then pathDirname srcM2tsPath else s

/-! ## DropCheck CLI: the run method as a trace over an environment -/

/-- Which of the three settlers of the awaited promise fires first:
the read stream ends, the read stream errors, or `checker.start`
rejects. -/
inductive FirstSignal
  | streamEnd
  | streamError (message : String)
  | startError (message : String)
deriving DecidableEq, Repr

/-- Outcomes of the external collaborators during one `run`. -/
structure CliEnv where
  firstSignal : FirstSignal
  resultOutcome : Except String DropResult
  stopOutcome : Except String Unit
  slackFailure : Option String

/-- Observable actions `run` performs, in order. -/
inductive CliAction
  | logOut (message : String)
  | logErr (message : String)
  | checkerStart (dir : String) (src : String)
  | checkerStop (result : Except String Unit)
  | transformEnd
  | transformUnpipe
  | readClose
  | slackRequest (acts : List HttpAction)
  | exitWith (code : Nat)

def startMessage : String := "ドロップチェック開始"

def doneMessage : String := "ドロップチェック完了"

def promiseFailMessage : String := "ドロップチェックに失敗しました"

def finalizeFailMessage : String := "解放処理またはドロップ情報の読み込みに失敗しました"

/-- Actions of `_printDropResult`: the three console.log lines with the
summed counters. -/
def printDropResultActions (dropResult : DropResult) : List CliAction :=
  let t := sumCounts dropResult
  [CliAction.logOut ("error      : " ++ toString t.1),
   CliAction.logOut ("drop       : " ++ toString t.2.1),
   CliAction.logOut ("scrambling : " ++ toString t.2.2)]

/-- The fatal tail both catch handlers perform: print the short
diagnostic and the error detail to the error channel, stop the checker
with its own failure swallowed (`.catch(() => \x7b \x7d)`), end and
unpipe the transform stream, close the read stream, then
`process.exit(1)`. -/
def fatalActions (diagnostic : String) (detail : String)
    (stopResult : Except String Unit) : List CliAction :=
  [CliAction.logErr diagnostic, CliAction.logErr detail,
   CliAction.checkerStop stopResult, CliAction.transformEnd,
   CliAction.transformUnpipe, CliAction.readClose, CliAction.exitWith 1]

/-- Model of `DropCheck.run`: the action trace and the process exit
code (0 when the run falls off the end of `run` and node exits after
the event loop drains). The checker is started with the resolved log
directory and the source path; then the first settling signal decides
the promise; on normal end, `getResult` is awaited, the resources are
released, the result is printed, and the optional Slack post happens
inside the same try block, so its synchronous throw lands in the catch
handler. -/
def cliRun (cfg : CliConfig) (env : CliEnv) : List CliAction × Nat :=
  let startDir := resolveLogDir cfg.dstLogDirPath cfg.srcM2tsPath
  let pre : List CliAction :=
    [CliAction.logOut startMessage, CliAction.checkerStart startDir cfg.srcM2tsPath]
  match env.firstSignal with
  | FirstSignal.streamError e =>
    (pre ++ fatalActions promiseFailMessage e env.stopOutcome, 1)
  | FirstSignal.startError e =>
    (pre ++ fatalActions promiseFailMessage e env.stopOutcome, 1)
  | FirstSignal.streamEnd =>
    match env.resultOutcome with
    | Except.error e =>
      (pre ++ fatalActions finalizeFailMessage e env.stopOutcome, 1)
    | Except.ok dropResult =>
      let release : List CliAction :=
        [CliAction.checkerStop env.stopOutcome, CliAction.transformEnd,
         CliAction.transformUnpipe, CliAction.readClose]
      let report := [CliAction.logOut doneMessage] ++ printDropResultActions dropResult
      if cfg.isPostToSlack then
        match env.slackFailure with
        | some e =>
          (pre ++ release ++ report ++
            fatalActions finalizeFailMessage e env.stopOutcome, 1)
        | none =>
          (pre ++ release ++ report ++
            [CliAction.slackRequest (postToSlack none dropResult cfg.srcM2tsPath).1], 0)
      else (pre ++ release ++ report, 0)

/-! ## DropCheck CLI: the progress-reporting transform stream -/

/-- Actions observable from the transform callback: the passthrough
push of the chunk and the progress-bar updates. -/
inductive TAction
  | push (length : Nat)
  | progressUpdate (value : Nat)
deriving DecidableEq, Repr

/-- Closure state of `_createTransformStream`: `bytesRead` and `count`. -/
structure TState where
  bytesRead : Nat
  count : Nat
deriving DecidableEq, Repr

/-- Progress-bar lifecycle actions. -/
inductive PAction
  | startBar (total : Nat) (value : Nat)
  | updateBar (value : Nat)
  | stopBar
deriving DecidableEq, Repr

/-- One transform callback: `bytesRead += chunk.length; if (++count ===
100) \x7b progressBar.update(bytesRead); count = 0; \x7d
this.push(chunk);`. -/
def transformChunk (s : TState) (chunkLength : Nat) : TState × List TAction :=
  let b := s.bytesRead + chunkLength
  let c := s.count + 1
  if c = 100 then (⟨b, 0⟩, [TAction.progressUpdate b, TAction.push chunkLength])
  else (⟨b, c⟩, [TAction.push chunkLength])

/-- Feed a whole chunk sequence through the transform callback. -/
def transformRun : TState → List Nat → TState × List TAction
  | s, [] => (s, [])
  | s, len :: rest =>
    let step := transformChunk s len
    let next := transformRun step.1 rest
    (next.1, step.2 ++ next.2)

/-- Construction of the stream: the progress bar is started with the
stat-ed file size as total and 0 as current value, and the closure
state starts at zero bytes and zero count. -/
def createTransformStreamInit (size : Nat) : PAction × TState :=
  (PAction.startBar size 0, ⟨0, 0⟩)

/-- The flush callback: set the bar to the total size and stop it. -/
def transformFlush (size : Nat) : List PAction :=
  [PAction.updateBar size, PAction.stopBar]

/-- Progress-update values among the transform actions, in order. -/
def updatesOf (acts : List TAction) : List Nat :=
  acts.filterMap (fun a => match a with
    | TAction.progressUpdate v => some v
    | _ => none)

/-! ## Stream integrity analyzer (spec section 4.2)

The continuity/drop analysis lives in DropCheckerModel and the aribts
library, which are not part of the given sources; the definitions below
are modelled from the spec. -/

/-- Modelled from the spec: the per-frame header fields §4.2 extracts
(DropCheckerModel / aribts TsPacketAnalyzer are not in the given
sources). `pid` is the 13-bit channel identifier, `adaptationFieldControl`
the 2-bit field (1 payload only, 2 adaptation only, 3 both), and
`continuityCounter` the 4-bit counter. -/
structure TsFrame where
  pid : Nat
  transportError : Bool
  scramblingControl : Nat
  adaptationFieldControl : Nat
  discontinuityIndicator : Bool
  continuityCounter : Nat
deriving DecidableEq, Repr

/-- Modelled from the spec: per-channel integrity state — the last
observed continuity counter (absent before the first observation) and
the three cumulative counters. -/
structure ChState where
  lastCC : Option Nat
  error : Nat
  drop : Nat
  scrambling : Nat
deriving DecidableEq, Repr

def ChState.fresh : ChState := ⟨none, 0, 0, 0⟩

/-- The reserved null-packet identifier: all-ones, 13 bits. -/
def nullPid : Nat := 8191

/-- Modelled from the spec: continuity evaluation of one payload-bearing
frame (§4.2). First observation seeds the expected counter without a
drop; an asserted discontinuity indicator reseeds without a drop; a
counter equal to expected+1 mod 16 is in sequence; a duplicate (observed
equals the previous value) charges nothing; otherwise one drop is
charged per unit of gap modulo 16. The expected counter is always reseeded
to the observed value. -/
def procCC (st : ChState) (disc : Bool) (cc : Nat) : ChState :=
  match st.lastCC with
  | none => { st with lastCC := some cc }
  | some last =>
    if disc then { st with lastCC := some cc }
    else if cc = (last + 1) % 16 then { st with lastCC := some cc }
    else if cc = last then { st with lastCC := some cc }
    else { st with lastCC := some cc,
                   drop := st.drop + (cc + 16 - (last + 1)) % 16 }

/-- Modelled from the spec: per-frame bookkeeping other than continuity
— the transport-error indicator and a non-zero scrambling-control field
each bump their counter. -/
def countFlags (st : ChState) (f : TsFrame) : ChState :=
  { st with
    error := st.error + (if f.transportError then 1 else 0),
    scrambling := st.scrambling + (if f.scramblingControl ≠ 0 then 1 else 0) }

/-- Channel table of the analyzer: association list from PID to state. -/
abbrev AnalyzerState : Type := List (Nat × ChState)

def lookupCh (s : AnalyzerState) (pid : Nat) : Option ChState :=
  (s.find? (fun p => p.1 = pid)).map (fun p => p.2)

def updateCh (s : AnalyzerState) (pid : Nat) (st : ChState) : AnalyzerState :=
  match s with
  | [] => [(pid, st)]
  | p :: rest => if p.1 = pid then (pid, st) :: rest else p :: updateCh rest pid st

/-- Modelled from the spec: processing of one frame (§4.2). Null-PID
frames are ignored entirely; otherwise the channel state is fetched
(fresh on first observation), error and scrambling flags are counted,
and the continuity counter is evaluated only when the
adaptation-field-control indicates a payload (value 1 or 3). -/
def processFrame (s : AnalyzerState) (f : TsFrame) : AnalyzerState :=
  if f.pid = nullPid then s
  else
    let st0 := (lookupCh s f.pid).getD ChState.fresh
    let st1 := countFlags st0 f
    let st2 :=
      if f.adaptationFieldControl = 1 ∨ f.adaptationFieldControl = 3 then
        procCC st1 f.discontinuityIndicator f.continuityCounter
      else st1
    updateCh s f.pid st2

/-- Modelled from the spec: the analyzer folds the frame sequence in
strict order. -/
def runAnalyzer (frames : List TsFrame) (s : AnalyzerState) : AnalyzerState :=
  frames.foldl processFrame s

/-- Accumulated drop count of one channel (0 when never observed). -/
def dropOf (s : AnalyzerState) (pid : Nat) : Nat :=
  ((lookupCh s pid).getD ChState.fresh).drop

/-- A clean payload-bearing frame for one channel: payload only, no
error, no scrambling, no discontinuity indicator. -/
def payloadFrame (pid : Nat) (cc : Nat) : TsFrame :=
  ⟨pid, false, 0, 1, false, cc⟩

/-- Clean payload frames on one channel with counters d, d+1, ...,
d+m-1, each reduced mod 16. -/
def ccFrames (pid : Nat) (d : Nat) : Nat → List TsFrame
  | 0 => []
  | m + 1 => payloadFrame pid (d % 16) :: ccFrames pid (d + 1) m

/-- A per-channel sequence with one gap: counters c..c+a are observed,
then k consecutive payload frames are missing, then counters
c+a+1+k .. c+a+k+b+1 are observed (all mod 16), so the counter jumps by
k+1 across the gap. -/
def gapSeq (pid : Nat) (c : Nat) (a : Nat) (k : Nat) (b : Nat) : List TsFrame :=
  ccFrames pid c (a + 1) ++ ccFrames pid (c + a + 1 + k) (b + 1)

/-! ## Specification-side totals and concrete inputs used by the claims -/

/-- Aggregate error total as the claim words it: the sum of the error
counter over all channel entries of the result. -/
def mapSumError (r : DropResult) : Nat := (r.map (fun q => q.2.error)).sum

/-- Aggregate drop total: the sum of the drop counter over all channel
entries. -/
def mapSumDrop (r : DropResult) : Nat := (r.map (fun q => q.2.drop)).sum

/-- Aggregate scrambling total: the sum of the scrambling counter over
all channel entries. -/
def mapSumScrambling (r : DropResult) : Nat := (r.map (fun q => q.2.scrambling)).sum

/-- The amended urgency condition: some aggregate total has a non-zero
32-bit residue (the JS bitwise OR in the source truncates each total to
32 bits before testing). -/
def anyResidueNonzero (r : DropResult) : Prop :=
  ¬ (toInt32Residue (mapSumError r) = 0 ∧ toInt32Residue (mapSumDrop r) = 0 ∧
     toInt32Residue (mapSumScrambling r) = 0)

instance (r : DropResult) : Decidable (anyResidueNonzero r) := by
  unfold anyResidueNonzero
  infer_instance

/-- A drop result whose single channel holds exactly 2^32 errors: the
aggregate is non-zero but its 32-bit residue is zero. -/
def bigErrorResult : DropResult := [(0, ⟨4294967296, 0, 0⟩)]

def samplePath : String := "/rec/a.m2ts"

/-- Configuration requesting the Slack post. -/
def slackCliConfig : CliConfig := ⟨ "/rec/a.m2ts", none, true⟩

/-- Environment where everything succeeds except the webhook post,
whose synchronous throw is what `https.request` does on an invalid
webhook URL. -/
def slackThrowEnv : CliEnv :=
  ⟨FirstSignal.streamEnd, Except.ok [], Except.ok (), some "ERR_INVALID_URL"⟩

/-! ## Helper lemmas: event bus -/

theorem emitLoop_records (l : List Callback) (a : EvArgs) (log : List String) :
    (emitLoop l a log).1 = l.map (fun cb => (cb, a, cb a)) := by
  induction l generalizing log with
  | nil => rfl
  | cons cb rest ih => simp [emitLoop, ih]

theorem emitLoop_log (l : List Callback) (a : EvArgs) (log : List String) :
    (emitLoop l a log).2 = log ++ errorsOf l a := by
  induction l generalizing log with
  | nil => simp [emitLoop, errorsOf]
  | cons cb rest ih =>
    cases h : cb a with
    | ok u => simp [emitLoop, errorsOf, List.filterMap_cons, h, ih]
    | error e => simp [emitLoop, errorsOf, List.filterMap_cons, h, ih]

theorem listenersFor_emitterOn (em : EventEmitter) (k k2 : String) (cb : Callback) :
    listenersFor (emitterOn em k cb) k2 =
      listenersFor em k2 ++ (if k = k2 then [cb] else []) := by
  by_cases h : k = k2 <;>
    simp [listenersFor, emitterOn, List.filter_append, h]

theorem listenersFor_registerAll (em : EventEmitter) (k : String) (cbs : List Callback) :
    listenersFor (registerAll em k cbs) k = listenersFor em k ++ cbs := by
  induction cbs generalizing em with
  | nil => simp [registerAll]
  | cons cb rest ih =>
    have h1 : registerAll em k (cb :: rest) = registerAll (emitterOn em k cb) k rest := rfl
    rw [h1, ih, listenersFor_emitterOn]
    simp

/-! ## Claim theorems: RecordingEvent bus -/

/-- C1: for every event kind and every registered listener, a listener
callback that throws or rejects during dispatch is caught by the
wrapper, its error is logged there, and nothing propagates to the
emitter: the dispatch trace of an emission invokes every listener
registered for that kind exactly once, in order, with the emitted
arguments, whether or not any of them fails, and the log collects
exactly the failing listeners' errors. -/
theorem recordingEvent_listener_failure_isolated (em : EventEmitter) (key : String)
    (a : EvArgs) :
    (emitterEmit em key a).1 = (listenersFor em key).map (fun cb => (cb, a, cb a))
  ∧ (emitterEmit em key a).2 = errorsOf (listenersFor em key) a := by
  exact ⟨emitLoop_records _ _ _, emitLoop_log _ _ _⟩

/-- C7: listeners registered for one event kind are dispatched, on each
emission of that kind, in the order in which they were registered:
registering callbacks appends them to the kind's listener list, and the
dispatch trace follows that list. -/
theorem recordingEvent_dispatch_registration_order (em : EventEmitter) (key : String)
    (cbs : List Callback) (a : EvArgs) :
    listenersFor (registerAll em key cbs) key = listenersFor em key ++ cbs
  ∧ (emitterEmit (registerAll em key cbs) key a).1 =
      (listenersFor em key ++ cbs).map (fun cb => (cb, a, cb a)) := by
  refine ⟨listenersFor_registerAll em key cbs, ?_⟩
  rw [emitterEmit, emitLoop_records, listenersFor_registerAll]

/-- C10: the eight event-name constants of RecordingEvent are pairwise
distinct; every emission of one kind invokes each callback registered
for that kind exactly once with the emitted arguments, and registering
a callback under one kind never changes the listener list of a
different kind. -/
theorem recordingEvent_names_distinct_dispatch_exact :
    List.Pairwise (fun x y => x ≠ y) RecordingEvent.eventNames
  ∧ (∀ (em : EventEmitter) (key : String) (a : EvArgs),
      (emitterEmit em key a).1 = (listenersFor em key).map (fun cb => (cb, a, cb a)))
  ∧ (∀ (em : EventEmitter) (key key2 : String) (cb : Callback), key ≠ key2 →
      listenersFor (emitterOn em key cb) key2 = listenersFor em key2) := by
  refine ⟨by decide, fun em key a => emitLoop_records _ _ _, fun em key key2 cb h => ?_⟩
  rw [listenersFor_emitterOn, if_neg h]
  simp

/-- Witness for C10 at concrete inputs: registering a listener for the
recording-preparation kind leaves the finish kind's listeners alone. -/
theorem recordingEvent_names_distinct_dispatch_exact_witness :
    listenersFor
        (emitterOn EventEmitter.empty RecordingEvent.START_PREP_RRECORDING_EVENT
          (fun _ => Except.ok ()))
        RecordingEvent.FINISH_RECORDING_EVENT =
      listenersFor EventEmitter.empty RecordingEvent.FINISH_RECORDING_EVENT :=
  recordingEvent_names_distinct_dispatch_exact.2.2 EventEmitter.empty
    RecordingEvent.START_PREP_RRECORDING_EVENT RecordingEvent.FINISH_RECORDING_EVENT
    (fun _ => Except.ok ()) (by decide)

/-! ## Claim theorems: DropCheck argument handling and log directory -/

/-- C6: the constructor accepts every invocation supplying a non-empty
input path, storing it with the optional output directory and the
webhook flag (both of which may be omitted), and on an absent or empty
input path it writes the usage diagnostics to the error channel and
exits with code 1 before any analysis object exists. -/
theorem dropCheckConstructor_requires_input :
    (∀ (output : Option String) (slack : Bool),
      dropCheckConstructor none output slack = Except.error (usageMessages, 1))
  ∧ (∀ (output : Option String) (slack : Bool),
      dropCheckConstructor (some "") output slack = Except.error (usageMessages, 1))
  ∧ (∀ (s : String) (output : Option String) (slack : Bool), s ≠ "" →
      dropCheckConstructor (some s) output slack = Except.ok ⟨s, output, slack⟩) := by
  refine ⟨fun o sl => rfl, fun o sl => rfl, fun s o sl h => ?_⟩
  simp [dropCheckConstructor, h]

/-- Witness for C6 at a concrete invocation: an input path alone, with
output directory and webhook flag omitted, is accepted. -/
theorem dropCheckConstructor_requires_input_witness :
    dropCheckConstructor (some "INPUT.m2ts") none false =
      Except.ok ⟨ "INPUT.m2ts", none, false⟩ :=
  dropCheckConstructor_requires_input.2.2 "INPUT.m2ts" none false (by decide)

/-- C9: the checker is started (second action of every run) with the
resolved report directory: the directory of the input file when the
output option is omitted or empty, and exactly the supplied directory
otherwise. -/
theorem cliRun_log_directory_choice :
    (∀ (s : String), resolveLogDir none s = pathDirname s)
  ∧ (∀ (s : String), resolveLogDir (some "") s = pathDirname s)
  ∧ (∀ (s d : String), d ≠ "" → resolveLogDir (some d) s = d)
  ∧ (∀ (cfg : CliConfig) (env : CliEnv),
      (cliRun cfg env).1[1]? =
        some (CliAction.checkerStart (resolveLogDir cfg.dstLogDirPath cfg.srcM2tsPath)
          cfg.srcM2tsPath)) := by
  refine ⟨fun s => rfl, fun s => rfl, fun s d h => by simp [resolveLogDir, h], ?_⟩
  intro cfg env
  obtain ⟨src, dst, slack⟩ := cfg
  obtain ⟨fs, ro, so, sf⟩ := env
  cases fs <;> cases ro <;> cases slack <;> cases sf <;> rfl

/-- Witness for C9 at a concrete invocation: a supplied non-empty
output directory is used as given. -/
theorem cliRun_log_directory_choice_witness :
    resolveLogDir (some "/logs") "/rec/a.m2ts" = "/logs" :=
  cliRun_log_directory_choice.2.2.1 "/rec/a.m2ts" "/logs" (by decide)

/-! ## Helper lemmas: transform-stream progress sampling -/

theorem transformRun_updates (chunks : List Nat) (b c : Nat) (hc : c < 100) :
    updatesOf (transformRun ⟨b, c⟩ chunks).2 =
      (List.range chunks.length).filterMap
        (fun i => if (c + i + 1) % 100 = 0 then some (b + (chunks.take (i + 1)).sum)
          else none) := by
  induction chunks generalizing b c with
  | nil => simp [transformRun, updatesOf]
  | cons x rest ih =>
    by_cases h : c + 1 = 100
    · have hup : updatesOf ((transformRun ⟨b, c⟩ (x :: rest)).2) =
          (b + x) :: updatesOf (transformRun ⟨b + x, 0⟩ rest).2 := by
        simp [transformRun, transformChunk, h, updatesOf]
      rw [hup, ih (b + x) 0 (by omega)]
      rw [List.length_cons, List.range_succ_eq_map, List.filterMap_cons, List.filterMap_map]
      have hcong : List.filterMap
            ((fun i => if (c + i + 1) % 100 = 0
              then some (b + ((x :: rest).take (i + 1)).sum) else none) ∘ Nat.succ)
            (List.range rest.length) =
          List.filterMap (fun i => if (0 + i + 1) % 100 = 0
              then some (b + x + (rest.take (i + 1)).sum) else none)
            (List.range rest.length) := by
        refine List.filterMap_congr ?_
        intro i hi
        have h2 : (c + Nat.succ i + 1) % 100 = (0 + i + 1) % 100 := by omega
        simp only [Function.comp_apply, Nat.succ_eq_add_one]
        rw [show c + (i + 1) + 1 = c + Nat.succ i + 1 from rfl, h2]
        simp [Nat.add_assoc]
      have hc0 : (c + 0 + 1) % 100 = 0 := by omega
      rw [hcong, hc0]
      simp
    · have hup : updatesOf ((transformRun ⟨b, c⟩ (x :: rest)).2) =
          updatesOf (transformRun ⟨b + x, c + 1⟩ rest).2 := by
        simp [transformRun, transformChunk, h, updatesOf]
      rw [hup, ih (b + x) (c + 1) (by omega)]
      rw [List.length_cons, List.range_succ_eq_map, List.filterMap_cons, List.filterMap_map]
      have hcong : List.filterMap
            ((fun i => if (c + i + 1) % 100 = 0
              then some (b + ((x :: rest).take (i + 1)).sum) else none) ∘ Nat.succ)
            (List.range rest.length) =
          List.filterMap (fun i => if (c + 1 + i + 1) % 100 = 0
              then some (b + x + (rest.take (i + 1)).sum) else none)
            (List.range rest.length) := by
        refine List.filterMap_congr ?_
        intro i hi
        have h2 : (c + Nat.succ i + 1) % 100 = (c + 1 + i + 1) % 100 := by omega
        simp only [Function.comp_apply, Nat.succ_eq_add_one]
        rw [show c + (i + 1) + 1 = c + Nat.succ i + 1 from rfl, h2]
        simp [Nat.add_assoc]
      have hc0 : ¬ (c + 0 + 1) % 100 = 0 := by omega
      rw [hcong, if_neg hc0]

/-! ## Claim theorem: transform-stream progress sampling -/

/-- C8: the progress bar is initialized with the total file size (and
value 0), is updated with the cumulative bytes consumed exactly once
per 100 chunks received — the i-th chunk triggers an update exactly
when i is a multiple of 100, carrying the byte total of the chunks so
far — and on stream flush it is set to the total size and stopped. -/
theorem transformStream_progress_sampling (size : Nat) (chunks : List Nat) :
    createTransformStreamInit size = (PAction.startBar size 0, (⟨0, 0⟩ : TState))
  ∧ updatesOf (transformRun ⟨0, 0⟩ chunks).2 =
      (List.range chunks.length).filterMap
        (fun i => if (i + 1) % 100 = 0 then some ((chunks.take (i + 1)).sum) else none)
  ∧ transformFlush size = [PAction.updateBar size, PAction.stopBar] := by
  refine ⟨rfl, ?_, rfl⟩
  rw [transformRun_updates chunks 0 0 (by omega)]
  simp

/-! ## Claim theorems: DropCheck exit codes and fatal cleanup -/

/-- C3 (amended): the run exits 0 exactly when the stream ends
normally, the result is retrieved, and any requested webhook post is
issued without throwing; every other outcome — read failure, analyzer
start failure, result retrieval failure, or a throwing webhook post —
exits 1 after writing a diagnostic to the error channel. -/
theorem cliRun_exit_code_classification (cfg : CliConfig) (env : CliEnv) :
    ((cliRun cfg env).2 = 0 ↔
      env.firstSignal = FirstSignal.streamEnd
        ∧ (∃ r, env.resultOutcome = Except.ok r)
        ∧ (cfg.isPostToSlack = true → env.slackFailure = none))
  ∧ ((cliRun cfg env).2 = 0 ∨ (cliRun cfg env).2 = 1)
  ∧ ((cliRun cfg env).2 = 1 → ∃ d, CliAction.logErr d ∈ (cliRun cfg env).1) := by
  obtain ⟨src, dst, slack⟩ := cfg
  obtain ⟨fs, ro, so, sf⟩ := env
  cases fs <;> cases ro <;> cases slack <;> cases sf <;>
    simp [cliRun, fatalActions, printDropResultActions]

/-- Witness for C3 at a concrete invocation: everything succeeding and
no webhook requested exits 0. -/
theorem cliRun_exit_code_classification_witness :
    (cliRun ⟨ "/rec/a.m2ts", none, false⟩
        ⟨FirstSignal.streamEnd, Except.ok [], Except.ok (), none⟩).2 = 0 :=
  (cliRun_exit_code_classification ⟨ "/rec/a.m2ts", none, false⟩
      ⟨FirstSignal.streamEnd, Except.ok [], Except.ok (), none⟩).1.mpr
    ⟨rfl, ⟨[], rfl⟩, fun h => nomatch h⟩

/-- C3 counterexample: with the webhook flag set and the post throwing
(which the hardcoded placeholder webhook URL always does), the analysis
completes, the result is retrieved and printed successfully, yet the
process exits 1, refuting the claim that such a run exits 0. -/
theorem cliRun_slack_throw_exit_counterexample :
    slackThrowEnv.firstSignal = FirstSignal.streamEnd
  ∧ slackThrowEnv.resultOutcome = Except.ok []
  ∧ CliAction.logOut doneMessage ∈ (cliRun slackCliConfig slackThrowEnv).1
  ∧ (cliRun slackCliConfig slackThrowEnv).2 = 1 := by
  refine ⟨rfl, rfl, ?_, rfl⟩
  simp [cliRun, slackCliConfig, slackThrowEnv, printDropResultActions, fatalActions]

/-- C5: on every fatal path the run first prints the short diagnostic
and the error detail to the error channel, then releases resources —
stops the checker with the stop's own failure swallowed, ends and
unpipes the transform stream, closes the read stream — and only then
exits with the non-zero code. -/
theorem cliRun_fatal_cleanup_before_exit (cfg : CliConfig) (env : CliEnv)
    (h : (cliRun cfg env).2 = 1) :
    ∃ (pfx : List CliAction) (diagnostic detail : String),
      (cliRun cfg env).1 =
        pfx ++ [CliAction.logErr diagnostic, CliAction.logErr detail,
                CliAction.checkerStop env.stopOutcome, CliAction.transformEnd,
                CliAction.transformUnpipe, CliAction.readClose, CliAction.exitWith 1] := by
  obtain ⟨src, dst, slack⟩ := cfg
  obtain ⟨fs, ro, so, sf⟩ := env
  cases fs with
  | streamError e => exact ⟨_, _, _, rfl⟩
  | startError e => exact ⟨_, _, _, rfl⟩
  | streamEnd =>
    cases ro with
    | error e => exact ⟨_, _, _, rfl⟩
    | ok r =>
      cases slack with
      | false => exact absurd h (by simp [cliRun])
      | true =>
        cases sf with
        | none => exact absurd h (by simp [cliRun])
        | some e => exact ⟨_, _, _, rfl⟩

/-- Witness for C5 at a concrete invocation: a read-stream failure with
a checker stop that itself fails still produces the ordered fatal tail. -/
theorem cliRun_fatal_cleanup_before_exit_witness :
    ∃ (pfx : List CliAction) (diagnostic detail : String),
      (cliRun ⟨ "/rec/a.m2ts", none, false⟩
          ⟨FirstSignal.streamError "EIO", Except.ok [], Except.error "stop failed", none⟩).1 =
        pfx ++ [CliAction.logErr diagnostic, CliAction.logErr detail,
                CliAction.checkerStop (Except.error "stop failed"), CliAction.transformEnd,
                CliAction.transformUnpipe, CliAction.readClose, CliAction.exitWith 1] :=
  cliRun_fatal_cleanup_before_exit ⟨ "/rec/a.m2ts", none, false⟩
    ⟨FirstSignal.streamError "EIO", Except.ok [], Except.error "stop failed", none⟩ rfl

/-! ## Helper lemmas: continuity analyzer -/

theorem runAnalyzer_cons (f : TsFrame) (fs : List TsFrame) (s : AnalyzerState) :
    runAnalyzer (f :: fs) s = runAnalyzer fs (processFrame s f) := rfl

theorem runAnalyzer_append (l1 l2 : List TsFrame) (s : AnalyzerState) :
    runAnalyzer (l1 ++ l2) s = runAnalyzer l2 (runAnalyzer l1 s) :=
  List.foldl_append processFrame s l1 l2

theorem lookupCh_single (p : Nat) (st : ChState) : lookupCh [(p, st)] p = some st := by
  simp [lookupCh]

theorem processFrame_seed (p cc : Nat) (hp : p ≠ nullPid) :
    processFrame [] (payloadFrame p cc) = [(p, ⟨some cc, 0, 0, 0⟩)] := by
  simp [processFrame, payloadFrame, hp, lookupCh, countFlags, procCC, ChState.fresh, updateCh]

theorem processFrame_payload (p : Nat) (st : ChState) (cc : Nat) (hp : p ≠ nullPid) :
    processFrame [(p, st)] (payloadFrame p cc) = [(p, procCC st false cc)] := by
  simp [processFrame, payloadFrame, hp, lookupCh, countFlags, updateCh]

theorem runAnalyzer_ccFrames (p : Nat) (hp : p ≠ nullPid) :
    ∀ (m d : Nat) (st : ChState), st.lastCC = some (d % 16) →
      runAnalyzer (ccFrames p (d + 1) m) [(p, st)] =
        [(p, { st with lastCC := some ((d + m) % 16) })] := by
  intro m
  induction m with
  | zero =>
    intro d st hcc
    obtain ⟨lc, e0, dr0, sc0⟩ := st
    simp only [ChState.lastCC] at hcc
    subst hcc
    simp [ccFrames, runAnalyzer]
  | succ m ih =>
    intro d st hcc
    obtain ⟨lc, e0, dr0, sc0⟩ := st
    simp only [ChState.lastCC] at hcc
    subst hcc
    have hpc : procCC ⟨some (d % 16), e0, dr0, sc0⟩ false ((d + 1) % 16) =
        ⟨some ((d + 1) % 16), e0, dr0, sc0⟩ := by
      simp only [procCC]
      rw [if_neg (by simp : ¬ (false = true)),
          if_pos (by omega : (d + 1) % 16 = (d % 16 + 1) % 16)]
    rw [show ccFrames p (d + 1) (m + 1) =
          payloadFrame p ((d + 1) % 16) :: ccFrames p (d + 1 + 1) m from rfl,
        runAnalyzer_cons, processFrame_payload p _ _ hp, hpc]
    have h2 : (⟨some ((d + 1) % 16), e0, dr0, sc0⟩ : ChState).lastCC =
        some ((d + 1) % 16) := rfl
    rw [ih (d + 1) ⟨some ((d + 1) % 16), e0, dr0, sc0⟩ h2]
    have h3 : (d + 1 + m) % 16 = (d + (m + 1)) % 16 := by omega
    simp [h3]

theorem runAnalyzer_gapSeq (p c a k b : Nat) (hp : p ≠ nullPid)
    (hk1 : 1 ≤ k) (hk2 : k ≤ 14) :
    runAnalyzer (gapSeq p c a k b) [] =
      [(p, ⟨some ((c + a + 1 + k + b) % 16), 0, k, 0⟩)] := by
  have hseed : runAnalyzer (ccFrames p c (a + 1)) [] =
      [(p, ⟨some ((c + a) % 16), 0, 0, 0⟩)] := by
    rw [show ccFrames p c (a + 1) = payloadFrame p (c % 16) :: ccFrames p (c + 1) a from rfl,
        runAnalyzer_cons, processFrame_seed p (c % 16) hp]
    exact runAnalyzer_ccFrames p hp a c ⟨some (c % 16), 0, 0, 0⟩ rfl
  have hjump : procCC ⟨some ((c + a) % 16), 0, 0, 0⟩ false ((c + a + 1 + k) % 16) =
      ⟨some ((c + a + 1 + k) % 16), 0, k, 0⟩ := by
    have h1 : ¬ ((c + a + 1 + k) % 16 = ((c + a) % 16 + 1) % 16) := by omega
    have h2 : ¬ ((c + a + 1 + k) % 16 = (c + a) % 16) := by omega
    have h3 : ((c + a + 1 + k) % 16 + 16 - ((c + a) % 16 + 1)) % 16 = k := by omega
    simp only [procCC]
    rw [if_neg (by simp : ¬ (false = true)), if_neg h1, if_neg h2]
    simp
    omega
  rw [gapSeq, runAnalyzer_append, hseed,
      show ccFrames p (c + a + 1 + k) (b + 1) =
        payloadFrame p ((c + a + 1 + k) % 16) :: ccFrames p (c + a + 1 + k + 1) b from rfl,
      runAnalyzer_cons, processFrame_payload p _ _ hp, hjump]
  exact runAnalyzer_ccFrames p hp b (c + a + 1 + k)
    ⟨some ((c + a + 1 + k) % 16), 0, k, 0⟩ rfl

/-! ## Claim theorem: drop counting -/

/-- C4: in a per-channel payload-bearing frame sequence where exactly k
consecutive frames of one channel are missing — the observed continuity
counter jumps by k+1 modulo 16 with no discontinuity indicator — the
accumulated drop count for that channel is exactly k (for any position
of the gap and any run lengths before and after it); and a duplicate
frame, whose observed counter equals the previously stored value, adds
nothing to the drop count. -/
theorem analyzer_gap_drop_count (p c a k b : Nat) (hp : p ≠ nullPid)
    (hk1 : 1 ≤ k) (hk2 : k ≤ 14) :
    dropOf (runAnalyzer (gapSeq p c a k b) []) p = k
  ∧ (∀ (st : ChState) (last : Nat), st.lastCC = some last →
      (procCC st false last).drop = st.drop) := by
  constructor
  · rw [runAnalyzer_gapSeq p c a k b hp hk1 hk2]
    simp [dropOf, lookupCh]
  · intro st last hcc
    obtain ⟨lc, e0, dr0, sc0⟩ := st
    simp only [ChState.lastCC] at hcc
    subst hcc
    have h1 : ¬ (last = (last + 1) % 16) := by omega
    simp [procCC, h1]

/-- Witness for C4 at a concrete sequence: channel 100, counters 0,1,2
then a jump to 6 (three frames missing) followed by counters 7,8: the
accumulated drop count is 3. -/
theorem analyzer_gap_drop_count_witness :
    (100 : Nat) ≠ nullPid ∧ dropOf (runAnalyzer (gapSeq 100 0 2 3 2) []) 100 = 3 :=
  ⟨by decide, (analyzer_gap_drop_count 100 0 2 3 2 (by decide) (by decide) (by decide)).1⟩

/-! ## Helper lemmas: Slack webhook post -/

theorem sumCounts_go (r : DropResult) (e d sc : Nat) :
    r.foldl
        (fun acc p => (acc.1 + p.2.error, acc.2.1 + p.2.drop, acc.2.2 + p.2.scrambling))
        (e, d, sc) =
      (e + mapSumError r, d + mapSumDrop r, sc + mapSumScrambling r) := by
  induction r generalizing e d sc with
  | nil => simp [mapSumError, mapSumDrop, mapSumScrambling]
  | cons q rest ih =>
    simp [mapSumError, mapSumDrop, mapSumScrambling, ih, Nat.add_assoc]

theorem sumCounts_eq (r : DropResult) :
    sumCounts r = (mapSumError r, mapSumDrop r, mapSumScrambling r) := by
  have h := sumCounts_go r 0 0 0
  simpa [sumCounts] using h

theorem lorEqZeroIff (x y : Nat) : x ||| y = 0 ↔ x = 0 ∧ y = 0 := by
  constructor
  · intro h
    constructor <;> refine Nat.eq_of_testBit_eq fun i => ?_ <;>
    · have hb := congrArg (fun n => Nat.testBit n i) h
      simp only [Nat.testBit_or, Nat.zero_testBit, Bool.or_eq_false_iff] at hb
      simp [hb.1, hb.2]
  · rintro ⟨hx, hy⟩
    simp [hx, hy]

theorem hasProblemIff (r : DropResult) :
    (toInt32Residue (mapSumError r) ||| toInt32Residue (mapSumDrop r) |||
        toInt32Residue (mapSumScrambling r)) ≠ 0 ↔ anyResidueNonzero r := by
  rw [Ne, lorEqZeroIff, lorEqZeroIff, anyResidueNonzero]
  tauto

/-! ## Claim theorems: Slack webhook post -/

/-- C2 (amended): when the webhook option is enabled the tool builds
exactly one JSON payload whose summary block carries the three
aggregate totals (each the sum of that counter over all channel
entries) next to a quoted source-path block, and the message is marked
urgent (here-mention block plus the urgent text head before the path)
if and only if at least one aggregate total has a non-zero 32-bit
residue — the urgency test applies the JS 32-bit bitwise OR,
truncating each total modulo 2^32. If the https request is
constructed, the tool performs exactly one POST writing that JSON
body; but when the request constructor throws — as it does
synchronously on the shipped hard-coded placeholder webhook URL — the
exception propagates before the write and no HTTP action, hence no
POST, is performed at all. -/
theorem postToSlack_single_post_summary_urgency (r : DropResult) (p : String) :
    ((slackPayload r p).text = (if anyResidueNonzero r then urgentTextHead else "") ++ p
  ∧ ((if anyResidueNonzero r then warningHead else checkHead) ++
      resultMrkdwn (mapSumError r) (mapSumDrop r) (mapSumScrambling r))
        ∈ (slackPayload r p).blocks
  ∧ (">" ++ p) ∈ (slackPayload r p).blocks
  ∧ (isUrgentPayload (slackPayload r p) p = true ↔ anyResidueNonzero r))
  ∧ (postToSlack none r p =
      ([HttpAction.request "POST" "application/json",
        HttpAction.write (slackPayload r p), HttpAction.endRequest], none)
    ∧ requestsOf (postToSlack none r p).1 = [("POST", "application/json")])
  ∧ (∀ e, postToSlack (some e) r p = ([], some e)) := by
  refine ⟨?_, ⟨rfl, rfl⟩, fun e => rfl⟩
  by_cases hz : anyResidueNonzero r
  · have hneq : (toInt32Residue (mapSumError r) ||| toInt32Residue (mapSumDrop r) |||
        toInt32Residue (mapSumScrambling r)) ≠ 0 := (hasProblemIff r).mpr hz
    have hpay : slackPayload r p =
        ⟨urgentTextHead ++ p,
         [hereMention,
          warningHead ++ resultMrkdwn (mapSumError r) (mapSumDrop r) (mapSumScrambling r),
          ">" ++ p]⟩ := by
      simp [slackPayload, sumCounts_eq, hneq]
    refine ⟨by rw [hpay, if_pos hz], ?_, ?_, ?_⟩
    · rw [hpay, if_pos hz]
      simp
    · rw [hpay]
      simp
    · rw [hpay]
      simp [isUrgentPayload, hz]
  · have heq : (toInt32Residue (mapSumError r) ||| toInt32Residue (mapSumDrop r) |||
        toInt32Residue (mapSumScrambling r)) = 0 := by
      by_contra hne
      exact hz ((hasProblemIff r).mp hne)
    have hpay : slackPayload r p =
        ⟨ "" ++ p,
         [checkHead ++ resultMrkdwn (mapSumError r) (mapSumDrop r) (mapSumScrambling r),
          ">" ++ p]⟩ := by
      simp [slackPayload, sumCounts_eq, heq]
    refine ⟨by rw [hpay, if_neg hz], ?_, ?_, ?_⟩
    · rw [hpay, if_neg hz]
      simp
    · rw [hpay]
      simp
    · rw [hpay]
      simp [isUrgentPayload, hz]
      intro hcontra
      have hlen := congrArg String.length hcontra
      rw [String.length_append] at hlen
      have h4 : urgentTextHead.length = 4 := rfl
      rw [h4] at hlen
      exact absurd hlen (by omega)

/-- Witness for C2 at a concrete input: with a constructed request the
performed actions contain the single POST. -/
theorem postToSlack_single_post_summary_urgency_witness :
    requestsOf (postToSlack none [(7, ⟨1, 0, 0⟩)] "/rec/a.m2ts").1 =
      [("POST", "application/json")] :=
  (postToSlack_single_post_summary_urgency [(7, ⟨1, 0, 0⟩)] "/rec/a.m2ts").2.1.2

/-- C2 counterexample: at a result whose single channel carries 2^32
errors, the aggregate error total is non-zero yet the built message is
not marked urgent — the 32-bit truncation of the JS bitwise OR makes
the urgency test see zero — and with the request constructor throwing,
as the shipped placeholder webhook URL makes it do, no POST request is
performed at all; both refute the claim as stated. -/
theorem postToSlack_urgency_truncation_counterexample :
    mapSumError bigErrorResult = 4294967296
  ∧ isUrgentPayload (slackPayload bigErrorResult samplePath) samplePath = false
  ∧ requestsOf (postToSlack (some "ERR_INVALID_URL") bigErrorResult samplePath).1 = [] := by
  exact ⟨rfl, rfl, rfl⟩

end EPGStation
